import Mathlib

/-!
Verification of the serde_dynamo core against its specification.

The development shallowly embeds the crate's data model and the
serialization / deserialization routines:

* `AttributeValue` mirrors `src/attribute_value.rs` (the ten-variant tagged
  union).  Rust's `HashMap<String, AttributeValue>` is modelled as an
  association list together with a well-formedness predicate demanding
  distinct keys (a `HashMap` can only hold distinct keys); `Vec<u8>` is
  modelled as `List Nat` with a `< 256` bound carried by the same predicate.
* `ErrorImpl`, `DynError` and `ErrorPathL` mirror `src/error.rs`.
* The textual wire format is modelled at the JSON data-model level
  (`Json`): the JSON text layer itself is provided by the external
  `serde_json` crate and is out of scope; `encode` and `decode` embed the
  `serde::Serialize` / `serde::Deserialize` impls for `AttributeValue`,
  including the base64 treatment of `B` / `BS` payloads.
* Base64 follows RFC 4648 standard alphabet with canonical padding, the
  configuration of the external `base64` crate's `STANDARD` engine used by
  `src/attribute_value.rs`.
-/

namespace SerdeDynamo

/-- The ten-variant tagged union of `src/attribute_value.rs`.
`M` is modelled as an association list standing for
`HashMap<String, AttributeValue>`; byte payloads are `List Nat`. -/
inductive AttributeValue where
  | N (inner : String)
  | S (inner : String)
  | Bool (inner : Bool)
  | B (inner : List Nat)
  | Null (inner : Bool)
  | M (inner : List (String × AttributeValue))
  | L (inner : List AttributeValue)
  | Ss (inner : List String)
  | Ns (inner : List String)
  | Bs (inner : List (List Nat))
deriving Repr

/-- The closed error-kind taxonomy of `src/error.rs` (`pub enum ErrorImpl`).
`FailedToParseInt` / `FailedToParseFloat` carry the offending input text,
standing for the `std::num::Parse*Error` payloads (the call sites in
`src/de/deserializer_number.rs` pass the input along with the error).
`BinarySetExpectedType` is the constructor declared in `error.rs`;
the call site in `src/set/bytes.rs` refers to it as `BytesSetExpectedType`. -/
inductive ErrorImpl where
  | Message (s : String)
  | NotMaplike
  | NotSetlike
  | ExpectedString
  | ExpectedMap
  | ExpectedSeq
  | ExpectedNum
  | ExpectedBool
  | ExpectedChar
  | ExpectedUnit
  | ExpectedUnitStruct
  | ExpectedEnum
  | ExpectedBytes
  | ExpectedSingleKey
  | FailedToParseInt (input : String)
  | FailedToParseFloat (input : String)
  | KeyMustBeAString
  | SerializeMapKeyCalledTwice
  | SerializeMapValueBeforeKey
  | StringSetExpectedType
  | NumberSetExpectedType
  | BinarySetExpectedType
deriving Repr, DecidableEq

/-- The names of the constructors of `ErrorImpl` in `src/error.rs`, in
declaration order.  Used to state claims about which error kinds exist in
the taxonomy. -/
def errorImplConstructorNames : List String :=
  [ "Message", "NotMaplike", "NotSetlike", "ExpectedString", "ExpectedMap"
  , "ExpectedSeq", "ExpectedNum", "ExpectedBool", "ExpectedChar"
  , "ExpectedUnit", "ExpectedUnitStruct", "ExpectedEnum", "ExpectedBytes"
  , "ExpectedSingleKey", "FailedToParseInt", "FailedToParseFloat"
  , "KeyMustBeAString", "SerializeMapKeyCalledTwice"
  , "SerializeMapValueBeforeKey", "StringSetExpectedType"
  , "NumberSetExpectedType", "BinarySetExpectedType" ]

/-- The reverse-linked error-path chain of `src/error.rs`
(`pub(crate) enum ErrorPath<'a>`); the borrowed references become direct
sub-terms. -/
inductive ErrorPathL where
  | root
  | field (name : String) (parent : ErrorPathL)
  | elem (i : Nat) (parent : ErrorPathL)
  | enumVariant (name : String) (parent : ErrorPathL)
deriving Repr, DecidableEq

/-- Depth-first rendering of an `ErrorPathL`, following
`Error::from_path` in `src/error.rs`: the chain is visited from the root
outwards, each visited segment appends its text (`name` for fields and
enum variants, `[i]` for elements) followed by `'.'`. -/
def renderPathAux : ErrorPathL → String
  | .root => ""
  | .field name parent => renderPathAux parent ++ name ++ "."
  | .elem i parent => renderPathAux parent ++ "[" ++ toString i ++ "]" ++ "."
  | .enumVariant name parent => renderPathAux parent ++ name ++ "."

/-- Renders `Error::from_path`'s path: the depth-first accumulation with
the trailing `'.'` removed (`path_str.pop()`). -/
def renderPath (p : ErrorPathL) : String :=
  (renderPathAux p).dropRight 1

/-- Embeds `serde_dynamo::Error`: the `(ErrorImpl, String, Option<AttributeValue>)`
triple of `src/error.rs`. -/
structure DynError where
  kind : ErrorImpl
  path : String
  value : Option AttributeValue
deriving Repr

/-- Embeds `Error::from_path` of `src/error.rs`: build an error whose path string
is rendered eagerly at the point of failure. -/
def DynError.fromPath (kind : ErrorImpl) (p : ErrorPathL) (input : AttributeValue) :
    DynError :=
  ⟨kind, renderPath p, some input⟩

/-- Embeds `impl Into<Error> for ErrorImpl` of `src/error.rs`: no path, no value. -/
def ErrorImpl.intoError (kind : ErrorImpl) : DynError :=
  ⟨kind, "", none⟩

/-! ### Base64 (RFC 4648 standard alphabet, canonical padding)

Model of the external `base64` crate's `general_purpose::STANDARD` engine
used by `src/attribute_value.rs`. -/

/-- The padding character. -/
def padChar : Char := '='

/-- The standard-alphabet character of a six-bit group. -/
def sextetToChar (n : Nat) : Char :=
  if n < 26 then Char.ofNat (65 + n)
  else if n < 52 then Char.ofNat (97 + (n - 26))
  else if n < 62 then Char.ofNat (48 + (n - 52))
  else if n = 62 then '+'
  else '/'

/-- The six-bit group of a standard-alphabet character, `none` for a
character outside the alphabet. -/
def charToSextet (c : Char) : Option Nat :=
  if 'A' ≤ c ∧ c ≤ 'Z' then some (c.toNat - 65)
  else if 'a' ≤ c ∧ c ≤ 'z' then some (c.toNat - 97 + 26)
  else if '0' ≤ c ∧ c ≤ '9' then some (c.toNat - 48 + 52)
  else if c = '+' then some 62
  else if c = '/' then some 63
  else none

theorem charToSextet_sextetToChar_fin :
    ∀ m : Fin 64, charToSextet (sextetToChar m.val) = some m.val := by
  decide

theorem charToSextet_sextetToChar {n : Nat} (h : n < 64) :
    charToSextet (sextetToChar n) = some n :=
  charToSextet_sextetToChar_fin ⟨n, h⟩

theorem sextetToChar_ne_pad_fin :
    ∀ m : Fin 64, sextetToChar m.val ≠ padChar := by
  decide

theorem sextetToChar_ne_pad {n : Nat} (h : n < 64) : sextetToChar n ≠ padChar :=
  sextetToChar_ne_pad_fin ⟨n, h⟩

/-- Base64-encode a byte list: three bytes become four alphabet characters,
a final quantum of one or two bytes is padded with `=`. -/
def base64EncodeChars : List Nat → List Char
  | [] => []
  | [a] => [sextetToChar (a / 4), sextetToChar (a % 4 * 16), padChar, padChar]
  | [a, b] =>
      [sextetToChar (a / 4), sextetToChar (a % 4 * 16 + b / 16),
       sextetToChar (b % 16 * 4), padChar]
  | a :: b :: c :: rest =>
      sextetToChar (a / 4) :: sextetToChar (a % 4 * 16 + b / 16) ::
      sextetToChar (b % 16 * 4 + c / 64) :: sextetToChar (c % 64) ::
      base64EncodeChars rest
termination_by structural bs => bs

/-- Base64-decode a character list.  Canonical-padding rules of the
`STANDARD` engine: length must be a multiple of four, `=` may appear only
as padding of the final quantum, and the unused trailing bits of a padded
quantum must be zero. -/
def base64DecodeChars : List Char → Option (List Nat)
  | [] => some []
  | c1 :: c2 :: c3 :: c4 :: rest =>
    if rest = [] then
      if c4 = padChar then
        if c3 = padChar then
          match charToSextet c1, charToSextet c2 with
          | some s1, some s2 =>
            if s2 % 16 = 0 then some [s1 * 4 + s2 / 16] else none
          | _, _ => none
        else
          match charToSextet c1, charToSextet c2, charToSextet c3 with
          | some s1, some s2, some s3 =>
            if s3 % 4 = 0 then
              some [s1 * 4 + s2 / 16, s2 % 16 * 16 + s3 / 4]
            else none
          | _, _, _ => none
      else
        match charToSextet c1, charToSextet c2, charToSextet c3,
            charToSextet c4 with
        | some s1, some s2, some s3, some s4 =>
          some [s1 * 4 + s2 / 16, s2 % 16 * 16 + s3 / 4, s3 % 4 * 64 + s4]
        | _, _, _, _ => none
    else
      match charToSextet c1, charToSextet c2, charToSextet c3,
          charToSextet c4 with
      | some s1, some s2, some s3, some s4 =>
        match base64DecodeChars rest with
        | some bs =>
          some ((s1 * 4 + s2 / 16) :: (s2 % 16 * 16 + s3 / 4) ::
                (s3 % 4 * 64 + s4) :: bs)
        | none => none
      | _, _, _, _ => none
  | _ => none
termination_by structural cs => cs

/-- Models `BASE64_ENGINE.encode`. -/
def base64Encode (bytes : List Nat) : String :=
  String.mk (base64EncodeChars bytes)

/-- Models `BASE64_ENGINE.decode`, `none` on malformed input. -/
def base64Decode (s : String) : Option (List Nat) :=
  base64DecodeChars s.data

theorem base64EncodeChars_ne_nil {bs : List Nat} (h : bs ≠ []) :
    base64EncodeChars bs ≠ [] := by
  match bs with
  | [] => exact absurd rfl h
  | [a] => simp [base64EncodeChars]
  | [a, b] => simp [base64EncodeChars]
  | a :: b :: c :: rest => simp [base64EncodeChars]

/-- Decoding inverts encoding on byte lists (bytes below 256). -/
theorem base64DecodeChars_encodeChars :
    ∀ bs : List Nat, (∀ b ∈ bs, b < 256) →
      base64DecodeChars (base64EncodeChars bs) = some bs := by
  intro bs
  induction bs using base64EncodeChars.induct with
  | case1 => intro _; simp [base64EncodeChars, base64DecodeChars]
  | case2 a =>
    intro h
    have ha : a < 256 := h a (by simp)
    have h1 := charToSextet_sextetToChar (n := a / 4) (by omega)
    have h2 := charToSextet_sextetToChar (n := a % 4 * 16) (by omega)
    have hmod : a % 4 * 16 % 16 = 0 := by omega
    simp [base64EncodeChars, base64DecodeChars, h1, h2, hmod]
    omega
  | case3 a b =>
    intro h
    have ha : a < 256 := h a (by simp)
    have hb : b < 256 := h b (by simp)
    have h1 := charToSextet_sextetToChar (n := a / 4) (by omega)
    have h2 := charToSextet_sextetToChar (n := a % 4 * 16 + b / 16) (by omega)
    have h3 := charToSextet_sextetToChar (n := b % 16 * 4) (by omega)
    have hne := sextetToChar_ne_pad (n := b % 16 * 4) (by omega)
    have hmod : b % 16 * 4 % 4 = 0 := by omega
    simp [base64EncodeChars, base64DecodeChars, h1, h2, h3, hne, hmod]
    omega
  | case4 a b c rest ih =>
    intro h
    have ha : a < 256 := h a (by simp)
    have hb : b < 256 := h b (by simp)
    have hc : c < 256 := h c (by simp)
    have h1 := charToSextet_sextetToChar (n := a / 4) (by omega)
    have h2 := charToSextet_sextetToChar (n := a % 4 * 16 + b / 16) (by omega)
    have h3 := charToSextet_sextetToChar (n := b % 16 * 4 + c / 64) (by omega)
    have h4 := charToSextet_sextetToChar (n := c % 64) (by omega)
    have hrest : ∀ x ∈ rest, x < 256 := fun x hx => h x (by simp [hx])
    by_cases hr : rest = []
    · subst hr
      have hne := sextetToChar_ne_pad (n := c % 64) (by omega)
      simp [base64EncodeChars, base64DecodeChars, h1, h2, h3, h4, hne]
      omega
    · have henc := base64EncodeChars_ne_nil hr
      simp [base64EncodeChars, base64DecodeChars, h1, h2, h3, h4, henc,
        ih hrest]
      omega

/-- String-level statement of the base64 round trip. -/
theorem base64Decode_encode (bs : List Nat) (h : ∀ b ∈ bs, b < 256) :
    base64Decode (base64Encode bs) = some bs := by
  simpa [base64Decode, base64Encode] using base64DecodeChars_encodeChars bs h

/-! ### The textual wire format

The wire format is modelled at the JSON data-model level: `Json` stands
for a parsed `serde_json::Value`, objects keeping document order.  The
JSON text layer is the external `serde_json` crate and is out of scope. -/

/-- The JSON data model carrying the wire encoding. -/
inductive Json where
  | null
  | bool (b : Bool)
  | num (lit : String)
  | str (s : String)
  | arr (items : List Json)
  | obj (entries : List (String × Json))
deriving Repr

/-- Message of the zero-keys failure in `Visitor::visit_map`
(`src/attribute_value.rs`). -/
def msgNoKeys : String := "Expected exactly one key in the object, found none"

/-- Message of the second-key failure in `Visitor::visit_map`. -/
def msgMultipleKeys : String :=
  "Expected exactly one key in the object, found multiple keys"

/-- Message of the unrecognized-tag failure in `Visitor::visit_map`; the
key is quoted with apostrophes in the Rust format string. -/
def msgUnknownKey (k : String) : String :=
  "The key \x27" ++ k ++ "\x27 is not a known DynamoDB prefix"

/-- Message prefix of the malformed-base64 failure in `Visitor::visit_map`
(the Rust message appends the `base64` crate's error display). -/
def msgBase64 : String := "Failed to decode base64"

/-- Stands for the external JSON deserializer's own type-mismatch error
(e.g. a non-string payload under an `N` key); its exact text belongs to
`serde_json` and decides no claim. -/
def msgInvalidType : String := "invalid type"

/-- Models `map.next_value::<String>()`. -/
def expectString : Json → Except String String
  | .str s => .ok s
  | _ => .error msgInvalidType

/-- Models `map.next_value::<bool>()`. -/
def expectBool : Json → Except String Bool
  | .bool b => .ok b
  | _ => .error msgInvalidType

/-- Element loop of `next_value::<Vec<String>>()`. -/
def decodeStringItems : List Json → Except String (List String)
  | [] => .ok []
  | .str s :: rest =>
    match decodeStringItems rest with
    | .ok ss => .ok (s :: ss)
    | .error e => .error e
  | _ :: _ => .error msgInvalidType
termination_by structural items => items

/-- Models `map.next_value::<Vec<String>>()`. -/
def expectStringArray : Json → Except String (List String)
  | .arr items => decodeStringItems items
  | _ => .error msgInvalidType

/-- The base64 loop of the `BS` branch of `Visitor::visit_map`: decode
every base64 string, failing on the first malformed one. -/
def decodeB64Items : List String → Except String (List (List Nat))
  | [] => .ok []
  | s :: rest =>
    match base64Decode s with
    | none => .error msgBase64
    | some bytes =>
      match decodeB64Items rest with
      | .ok bss => .ok (bytes :: bss)
      | .error e => .error e
termination_by structural items => items

/-- Models `HashMap::insert` on the association-list representation: replace the value of
an existing key in place, append a fresh key. -/
def insertAssoc {α : Type} (k : String) (v : α) :
    List (String × α) → List (String × α)
  | [] => [(k, v)]
  | (k₀, v₀) :: rest =>
    if k₀ = k then (k, v) :: rest else (k₀, v₀) :: insertAssoc k v rest
termination_by structural l => l

mutual

/-- Embeds `impl serde::Serialize for AttributeValue` (`src/attribute_value.rs`):
emit a single-key object keyed by the fixed tag, base64-encoding `B` /
`BS` payloads. -/
def encode : AttributeValue → Json
  | .N inner => .obj [("N", .str inner)]
  | .S inner => .obj [("S", .str inner)]
  | .Bool inner => .obj [("BOOL", .bool inner)]
  | .B inner => .obj [("B", .str (base64Encode inner))]
  | .Null inner => .obj [("NULL", .bool inner)]
  | .M inner => .obj [("M", .obj (encodeEntries inner))]
  | .L inner => .obj [("L", .arr (encodeList inner))]
  | .Ss inner => .obj [("SS", .arr (inner.map Json.str))]
  | .Ns inner => .obj [("NS", .arr (inner.map Json.str))]
  | .Bs inner =>
    .obj [("BS", .arr (inner.map (fun b => Json.str (base64Encode b))))]
termination_by structural v => v

/-- Element recursion of serializing `Vec<AttributeValue>`. -/
def encodeList : List AttributeValue → List Json
  | [] => []
  | v :: rest => encode v :: encodeList rest
termination_by structural l => l

/-- Entry recursion of serializing `HashMap<String, AttributeValue>`. -/
def encodeEntries : List (String × AttributeValue) → List (String × Json)
  | [] => []
  | (k, v) :: rest => (k, encode v) :: encodeEntries rest
termination_by structural l => l

end

/-- The `"N"` branch of `Visitor::visit_map`. -/
def decodeTagN (v : Json) : Except String AttributeValue :=
  match expectString v with
  | .ok s => .ok (.N s)
  | .error e => .error e

/-- The `"S"` branch of `Visitor::visit_map`. -/
def decodeTagS (v : Json) : Except String AttributeValue :=
  match expectString v with
  | .ok s => .ok (.S s)
  | .error e => .error e

/-- The `"BOOL"` branch of `Visitor::visit_map`. -/
def decodeTagBool (v : Json) : Except String AttributeValue :=
  match expectBool v with
  | .ok b => .ok (.Bool b)
  | .error e => .error e

/-- The `"B"` branch of `Visitor::visit_map`: base64-decode the payload,
failing on malformed input. -/
def decodeTagB (v : Json) : Except String AttributeValue :=
  match expectString v with
  | .ok s =>
    match base64Decode s with
    | some bytes => .ok (.B bytes)
    | none => .error msgBase64
  | .error e => .error e

/-- The `"NULL"` branch of `Visitor::visit_map`. -/
def decodeTagNull (v : Json) : Except String AttributeValue :=
  match expectBool v with
  | .ok b => .ok (.Null b)
  | .error e => .error e

/-- The `"SS"` branch of `Visitor::visit_map`. -/
def decodeTagSs (v : Json) : Except String AttributeValue :=
  match expectStringArray v with
  | .ok ss => .ok (.Ss ss)
  | .error e => .error e

/-- The `"NS"` branch of `Visitor::visit_map`. -/
def decodeTagNs (v : Json) : Except String AttributeValue :=
  match expectStringArray v with
  | .ok ss => .ok (.Ns ss)
  | .error e => .error e

/-- The `"BS"` branch of `Visitor::visit_map`: base64-decode every
element, failing on the first malformed one. -/
def decodeTagBs (v : Json) : Except String AttributeValue :=
  match expectStringArray v with
  | .ok ss =>
    match decodeB64Items ss with
    | .ok bss => .ok (.Bs bss)
    | .error e => .error e
  | .error e => .error e

mutual

/-- Embeds `impl serde::Deserialize for AttributeValue` (`Visitor::visit_map` of
`src/attribute_value.rs`): read the first key, dispatch on its text, then
fail if a second key is present; a non-object input fails with the
external deserializer's type error. -/
def decode : Json → Except String AttributeValue
  | .obj [] => .error msgNoKeys
  | .obj ((k, v) :: rest) =>
    match decodeTagged k v with
    | .error e => .error e
    | .ok av =>
      match rest with
      | [] => .ok av
      | _ :: _ => .error msgMultipleKeys
  | _ => .error msgInvalidType
termination_by structural j => j

/-- The `match first_key.as_str()` dispatch of `Visitor::visit_map`,
written as the equivalent comparison chain. -/
def decodeTagged (k : String) (v : Json) : Except String AttributeValue :=
  if k = "N" then decodeTagN v
  else if k = "S" then decodeTagS v
  else if k = "BOOL" then decodeTagBool v
  else if k = "B" then decodeTagB v
  else if k = "NULL" then decodeTagNull v
  else if k = "M" then
    match v with
    | .obj entries =>
      match decodeEntries [] entries with
      | .ok item => .ok (.M item)
      | .error e => .error e
    | _ => .error msgInvalidType
  else if k = "L" then
    match v with
    | .arr items =>
      match decodeList items with
      | .ok avs => .ok (.L avs)
      | .error e => .error e
    | _ => .error msgInvalidType
  else if k = "SS" then decodeTagSs v
  else if k = "NS" then decodeTagNs v
  else if k = "BS" then decodeTagBs v
  else .error (msgUnknownKey k)
termination_by structural v

/-- Element recursion of `next_value::<Vec<AttributeValue>>()`. -/
def decodeList : List Json → Except String (List AttributeValue)
  | [] => .ok []
  | j :: rest =>
    match decode j with
    | .error e => .error e
    | .ok av =>
      match decodeList rest with
      | .error e => .error e
      | .ok avs => .ok (av :: avs)
termination_by structural items => items

/-- Entry recursion of `next_value::<HashMap<String, AttributeValue>>()`:
entries are visited in document order and inserted into the map
(duplicates resolve last-write-wins, as with `HashMap`). -/
def decodeEntries (acc : List (String × AttributeValue)) :
    List (String × Json) → Except String (List (String × AttributeValue))
  | [] => .ok acc
  | (k, j) :: rest =>
    match decode j with
    | .error e => .error e
    | .ok av => decodeEntries (insertAssoc k av acc) rest
termination_by structural entries => entries

end

/-- Unfolding of `decode` at an empty object. -/
theorem decode_obj_nil : decode (.obj []) = .error msgNoKeys := rfl

/-- Unfolding of `decode` at a non-empty object: dispatch on the first
key, then reject a second key. -/
theorem decode_obj_cons (k : String) (v : Json) (rest : List (String × Json)) :
    decode (.obj ((k, v) :: rest)) =
      match decodeTagged k v with
      | .error e => .error e
      | .ok av =>
        match rest with
        | [] => .ok av
        | _ :: _ => .error msgMultipleKeys := rfl

/-- Unfolding of the tag dispatch. -/
theorem decodeTagged_unfold (k : String) (v : Json) :
    decodeTagged k v =
      if k = "N" then decodeTagN v
      else if k = "S" then decodeTagS v
      else if k = "BOOL" then decodeTagBool v
      else if k = "B" then decodeTagB v
      else if k = "NULL" then decodeTagNull v
      else if k = "M" then
        match v with
        | .obj entries =>
          match decodeEntries [] entries with
          | .ok item => .ok (.M item)
          | .error e => .error e
        | _ => .error msgInvalidType
      else if k = "L" then
        match v with
        | .arr items =>
          match decodeList items with
          | .ok avs => .ok (.L avs)
          | .error e => .error e
        | _ => .error msgInvalidType
      else if k = "SS" then decodeTagSs v
      else if k = "NS" then decodeTagNs v
      else if k = "BS" then decodeTagBs v
      else .error (msgUnknownKey k) := by
  cases v <;> rfl

/-- No duplicates in a key list (Boolean). -/
def allDistinct : List String → Bool
  | [] => true
  | k :: rest => !(rest.contains k) && allDistinct rest

mutual

/-- Constructibility of an `AttributeValue` model value as a Rust value:
every byte is below 256 (`u8` by construction) and every map's keys are
distinct (`HashMap` by construction). -/
def wfAttr : AttributeValue → Bool
  | .N _ => true
  | .S _ => true
  | .Bool _ => true
  | .B inner => inner.all (fun b => decide (b < 256))
  | .Null _ => true
  | .M inner => allDistinct (inner.map Prod.fst) && wfEntries inner
  | .L inner => wfList inner
  | .Ss _ => true
  | .Ns _ => true
  | .Bs inner => inner.all (fun b => b.all (fun x => decide (x < 256)))
termination_by structural v => v

/-- Conjunction of `wfAttr` over a list. -/
def wfList : List AttributeValue → Bool
  | [] => true
  | v :: rest => wfAttr v && wfList rest
termination_by structural l => l

/-- Conjunction of `wfAttr` over entry values. -/
def wfEntries : List (String × AttributeValue) → Bool
  | [] => true
  | (_, v) :: rest => wfAttr v && wfEntries rest
termination_by structural l => l

end

mutual

/-- Size measure for the round-trip induction. -/
def sizeAV : AttributeValue → Nat
  | .M inner => 1 + sizeEntries inner
  | .L inner => 1 + sizeList inner
  | _ => 1
termination_by structural v => v

/-- Sum of `sizeAV` over a list. -/
def sizeList : List AttributeValue → Nat
  | [] => 0
  | v :: rest => sizeAV v + sizeList rest
termination_by structural l => l

/-- Sum of `sizeAV` over entry values. -/
def sizeEntries : List (String × AttributeValue) → Nat
  | [] => 0
  | (_, v) :: rest => sizeAV v + sizeEntries rest
termination_by structural l => l

end

theorem sizeAV_pos (v : AttributeValue) : 1 ≤ sizeAV v := by
  cases v <;> simp [sizeAV]

theorem sizeList_mem {v : AttributeValue} {vs : List AttributeValue}
    (h : v ∈ vs) : sizeAV v ≤ sizeList vs := by
  induction vs with
  | nil => cases h
  | cons w rest ih =>
    rcases List.mem_cons.mp h with h' | h'
    · subst h'; simp [sizeList]
    · have := ih h'
      simp only [sizeList]
      omega

theorem sizeEntries_mem {p : String × AttributeValue}
    {es : List (String × AttributeValue)} (h : p ∈ es) :
    sizeAV p.2 ≤ sizeEntries es := by
  induction es with
  | nil => cases h
  | cons q rest ih =>
    rcases List.mem_cons.mp h with h' | h'
    · subst h'
      obtain ⟨k, v⟩ := p
      simp [sizeEntries]
    · have := ih h'
      obtain ⟨k, v⟩ := q
      simp only [sizeEntries]
      omega

theorem wfList_mem {v : AttributeValue} {vs : List AttributeValue}
    (hwf : wfList vs = true) (h : v ∈ vs) : wfAttr v = true := by
  induction vs with
  | nil => cases h
  | cons w rest ih =>
    simp only [wfList, Bool.and_eq_true] at hwf
    rcases List.mem_cons.mp h with h' | h'
    · subst h'; exact hwf.1
    · exact ih hwf.2 h'

theorem wfEntries_mem {p : String × AttributeValue}
    {es : List (String × AttributeValue)} (hwf : wfEntries es = true)
    (h : p ∈ es) : wfAttr p.2 = true := by
  induction es with
  | nil => cases h
  | cons q rest ih =>
    obtain ⟨k, v⟩ := q
    simp only [wfEntries, Bool.and_eq_true] at hwf
    rcases List.mem_cons.mp h with h' | h'
    · subst h'; exact hwf.1
    · exact ih hwf.2 h'

theorem allDistinct_iff {l : List String} : allDistinct l = true ↔ l.Nodup := by
  induction l with
  | nil => simp [allDistinct]
  | cons k rest ih =>
    simp [allDistinct, Bool.and_eq_true, ih, List.nodup_cons,
      List.contains, List.elem_eq_mem, and_comm]

theorem insertAssoc_of_not_mem {α : Type} (k : String) (v : α)
    (acc : List (String × α)) (h : k ∉ acc.map Prod.fst) :
    insertAssoc k v acc = acc ++ [(k, v)] := by
  induction acc with
  | nil => rfl
  | cons q rest ih =>
    obtain ⟨k₀, v₀⟩ := q
    simp only [List.map_cons, List.mem_cons, not_or] at h
    simp [insertAssoc, Ne.symm h.1, ih h.2]

theorem decodeStringItems_map (ss : List String) :
    decodeStringItems (ss.map Json.str) = .ok ss := by
  induction ss with
  | nil => simp [decodeStringItems]
  | cons s rest ih => simp [decodeStringItems, ih]

theorem decodeB64Items_map (bss : List (List Nat))
    (h : ∀ b ∈ bss, ∀ x ∈ b, x < 256) :
    decodeB64Items (bss.map base64Encode) = .ok bss := by
  induction bss with
  | nil => simp [decodeB64Items]
  | cons b rest ih =>
    have hb := base64Decode_encode b (h b (by simp))
    have hrest : ∀ b ∈ rest, ∀ x ∈ b, x < 256 :=
      fun b hb' => h b (by simp [hb'])
    simp [decodeB64Items, hb, ih hrest]

theorem decodeList_encodeList (vs : List AttributeValue)
    (h : ∀ v ∈ vs, decode (encode v) = .ok v) :
    decodeList (encodeList vs) = .ok vs := by
  induction vs with
  | nil => simp [encodeList, decodeList]
  | cons v rest ih =>
    have hv := h v (by simp)
    have hrest : ∀ w ∈ rest, decode (encode w) = .ok w :=
      fun w hw => h w (by simp [hw])
    simp [encodeList, decodeList, hv, ih hrest]

theorem decodeEntries_encodeEntries :
    ∀ (es acc : List (String × AttributeValue)),
      allDistinct ((acc ++ es).map Prod.fst) = true →
      (∀ p ∈ es, decode (encode p.2) = .ok p.2) →
      decodeEntries acc (encodeEntries es) = .ok (acc ++ es) := by
  intro es
  induction es with
  | nil => intro acc _ _; simp [encodeEntries, decodeEntries]
  | cons p rest ih =>
    intro acc hd hpt
    obtain ⟨k, v⟩ := p
    have hv : decode (encode v) = .ok v := hpt (k, v) (by simp)
    have hnodup : ((acc ++ (k, v) :: rest).map Prod.fst).Nodup :=
      allDistinct_iff.mp hd
    have hnm : k ∉ acc.map Prod.fst := by
      rw [List.map_append, List.map_cons] at hnodup
      have := List.nodup_middle.mp hnodup
      rw [List.nodup_cons] at this
      exact fun hmem => this.1 (List.mem_append.mpr (Or.inl hmem))
    have hshift : (acc ++ [(k, v)]) ++ rest = acc ++ (k, v) :: rest := by
      simp
    have hd' : allDistinct (((acc ++ [(k, v)]) ++ rest).map Prod.fst) = true := by
      rw [hshift]; exact hd
    have hrest : ∀ p ∈ rest, decode (encode p.2) = .ok p.2 :=
      fun p hp => hpt p (by simp [hp])
    have := ih (acc ++ [(k, v)]) hd' hrest
    rw [hshift] at this
    simp [encodeEntries, decodeEntries, hv, insertAssoc_of_not_mem k v acc hnm,
      this]

theorem decode_encode_aux :
    ∀ n, ∀ v : AttributeValue, sizeAV v ≤ n → wfAttr v = true →
      decode (encode v) = .ok v := by
  intro n
  induction n with
  | zero =>
    intro v hle _
    exact absurd hle (by have := sizeAV_pos v; omega)
  | succ n ih =>
    intro v hle hwf
    match v with
    | .N s => simp [encode, decode_obj_cons, decodeTagged_unfold, decodeTagN, expectString]
    | .S s => simp [encode, decode_obj_cons, decodeTagged_unfold, decodeTagS, expectString]
    | .Bool b => simp [encode, decode_obj_cons, decodeTagged_unfold, decodeTagBool, expectBool]
    | .B bs =>
      have hb : ∀ x ∈ bs, x < 256 := by
        simpa [wfAttr, List.all_eq_true] using hwf
      simp [encode, decode_obj_cons, decodeTagged_unfold, decodeTagB,
        expectString, base64Decode_encode bs hb]
    | .Null b => simp [encode, decode_obj_cons, decodeTagged_unfold, decodeTagNull, expectBool]
    | .M es =>
      simp only [wfAttr, Bool.and_eq_true] at hwf
      have hsz : sizeEntries es ≤ n := by
        have : sizeAV (.M es) = 1 + sizeEntries es := by simp [sizeAV]
        omega
      have hpt : ∀ p ∈ es, decode (encode p.2) = .ok p.2 := by
        intro p hp
        have h1 : sizeAV p.2 ≤ n := le_trans (sizeEntries_mem hp) hsz
        exact ih p.2 h1 (wfEntries_mem hwf.2 hp)
      have hde := decodeEntries_encodeEntries es [] (by simpa using hwf.1) hpt
      simp only [List.nil_append] at hde
      simp [encode, decode_obj_cons, decodeTagged_unfold, hde]
    | .L vs =>
      simp only [wfAttr] at hwf
      have hsz : sizeList vs ≤ n := by
        have : sizeAV (.L vs) = 1 + sizeList vs := by simp [sizeAV]
        omega
      have hpt : ∀ w ∈ vs, decode (encode w) = .ok w := by
        intro w hw
        have h1 : sizeAV w ≤ n := le_trans (sizeList_mem hw) hsz
        exact ih w h1 (wfList_mem hwf hw)
      simp [encode, decode_obj_cons, decodeTagged_unfold,
        decodeList_encodeList vs hpt]
    | .Ss ss =>
      simp [encode, decode_obj_cons, decodeTagged_unfold, decodeTagSs,
        expectStringArray, decodeStringItems_map]
    | .Ns ss =>
      simp [encode, decode_obj_cons, decodeTagged_unfold, decodeTagNs,
        expectStringArray, decodeStringItems_map]
    | .Bs bss =>
      have hb : ∀ b ∈ bss, ∀ x ∈ b, x < 256 := by
        simpa [wfAttr, List.all_eq_true] using hwf
      have h2 : decodeStringItems
            (List.map (fun b => Json.str (base64Encode b)) bss) =
          .ok (bss.map base64Encode) := by
        have h3 := decodeStringItems_map (bss.map base64Encode)
        rw [List.map_map] at h3
        simpa [Function.comp] using h3
      simp [encode, decode_obj_cons, decodeTagged_unfold, decodeTagBs,
        expectStringArray, h2, decodeB64Items_map bss hb]

/-- C1: wire-format round trip — for every constructible `AttributeValue`
(well-formed: `u8` bytes, distinct `HashMap` keys), decoding the wire
encoding yields exactly the original value, with `B` / `BS` payloads
base64-encoded on the wire and restored to the identical raw bytes. -/
theorem wire_roundtrip (v : AttributeValue) (h : wfAttr v = true) :
    decode (encode v) = .ok v :=
  decode_encode_aux (sizeAV v) v le_rfl h

/-- A concrete value exercising all ten variants, with nesting. -/
def roundtripSample : AttributeValue :=
  .M [ ("num", .N "123.45"), ("str", .S "Hello"), ("flag", .Bool true)
     , ("bin", .B [1, 2, 255]), ("nul", .Null true)
     , ("list", .L [.S "Cookies", .N "3.14159", .B [0]])
     , ("sset", .Ss ["Giraffe", "Hippo"]), ("nset", .Ns ["42.2", "-19"])
     , ("bset", .Bs [[83, 117], [82, 97]])
     , ("nested", .M [("inner", .Null false)]) ]

theorem wire_roundtrip_witness :
    wfAttr roundtripSample = true ∧
      decode (encode roundtripSample) = .ok roundtripSample := by
  have h : wfAttr roundtripSample = true := by decide
  exact ⟨h, wire_roundtrip roundtripSample h⟩

/-- The ten recognized wire tags of `Visitor::visit_map`. -/
def wireTags : List String :=
  ["N", "S", "BOOL", "B", "NULL", "M", "L", "SS", "NS", "BS"]

/-- C2 counterexample: the wire-decode failures are not identified by
dedicated named error kinds.  Decoding `{}` produces the generic
custom-message error of the host deserializer (modelled as the message
string handed to `Error::custom`), and the crate's closed error taxonomy
`ErrorImpl` (`src/error.rs`) declares no constructor named `NoKeys`,
`MultipleKeys`, `UnknownTag`, or `InvalidEncoding`. -/
theorem wire_decode_no_named_kinds :
    decode (.obj []) = .error msgNoKeys ∧
      "NoKeys" ∉ errorImplConstructorNames ∧
      "MultipleKeys" ∉ errorImplConstructorNames ∧
      "UnknownTag" ∉ errorImplConstructorNames ∧
      "InvalidEncoding" ∉ errorImplConstructorNames :=
  ⟨rfl, by decide, by decide, by decide, by decide⟩

/-- C2 (amended): decoding fails on zero keys, on a second key after a
successfully decoded first entry, on an unrecognized first key, and on
malformed base64 under `B` / `BS`; each failure is a generic
custom-message error whose text identifies the condition (not a dedicated
named kind of the `ErrorImpl` taxonomy). -/
theorem wire_decode_strictness :
    decode (.obj []) = .error msgNoKeys ∧
      (∀ (k : String) (v : Json) (av : AttributeValue)
          (rest : List (String × Json)), decodeTagged k v = .ok av →
          rest ≠ [] →
          decode (.obj ((k, v) :: rest)) = .error msgMultipleKeys) ∧
      (∀ (k : String) (v : Json) (rest : List (String × Json)),
          k ∉ wireTags →
          decode (.obj ((k, v) :: rest)) = .error (msgUnknownKey k)) ∧
      (∀ s : String, base64Decode s = none →
          decode (.obj [("B", .str s)]) = .error msgBase64) ∧
      (∀ (s : String) (ss : List String), base64Decode s = none →
          decode (.obj [("BS", .arr (Json.str s :: ss.map Json.str))]) =
            .error msgBase64) := by
  refine ⟨rfl, ?_, ?_, ?_, ?_⟩
  · intro k v av rest hok hne
    rw [decode_obj_cons, hok]
    cases rest with
    | nil => exact absurd rfl hne
    | cons p rest => rfl
  · intro k v rest hk
    simp only [wireTags, List.mem_cons, List.not_mem_nil, or_false,
      not_or] at hk
    obtain ⟨h1, h2, h3, h4, h5, h6, h7, h8, h9, h10⟩ := hk
    rw [decode_obj_cons, decodeTagged_unfold]
    simp [h1, h2, h3, h4, h5, h6, h7, h8, h9, h10]
  · intro s hs
    rw [decode_obj_cons, decodeTagged_unfold]
    simp [decodeTagB, expectString, hs]
  · intro s ss hs
    rw [decode_obj_cons, decodeTagged_unfold]
    have h2 : decodeStringItems (Json.str s :: ss.map Json.str) =
        .ok (s :: ss) := by
      simp [decodeStringItems, decodeStringItems_map]
    simp [decodeTagBs, expectStringArray, h2, decodeB64Items, hs]

theorem wire_decode_strictness_witness :
    decode (.obj [("S", .str "1"), ("N", .str "1")]) =
        .error msgMultipleKeys ∧
      decode (.obj [("X", .str "1")]) = .error (msgUnknownKey "X") ∧
      decode (.obj [("B", .str "X")]) = .error msgBase64 ∧
      decode (.obj [("BS", .arr [Json.str "X"])]) = .error msgBase64 := by
  refine ⟨?_, ?_, ?_, ?_⟩
  · exact wire_decode_strictness.2.1 "S" (.str "1") (.S "1")
      [("N", .str "1")] rfl (by simp)
  · exact wire_decode_strictness.2.2.1 "X" (.str "1") [] (by decide)
  · exact wire_decode_strictness.2.2.2.1 "X" rfl
  · have h := wire_decode_strictness.2.2.2.2 "X" [] rfl
    simpa using h

/-! ### Number parsing

Models of the external `str::parse::<i64>` / `::<u64>` / `::<f64>` used by
`src/de/deserializer_number.rs`, following the documented `FromStr`
grammars of the Rust standard library. -/

/-- Value of a non-empty all-digit character list, `none` otherwise. -/
def digitsVal (cs : List Char) : Option Nat :=
  if cs.isEmpty then none
  else if cs.all Char.isDigit then
    some (cs.foldl (fun acc c => acc * 10 + (c.toNat - 48)) 0)
  else none

/-- Models `str::parse::<u64>`: optional leading `+`, digits, value below `2^64`
(overflow is an error). -/
def parseU64 (s : String) : Option Nat :=
  let body :=
    match s.data with
    | '+' :: rest => rest
    | cs => cs
  match digitsVal body with
  | some n => if n < 2 ^ 64 then some n else none
  | none => none

/-- Models `str::parse::<i64>`: optional sign, digits, value within the `i64`
range (overflow is an error). -/
def parseI64 (s : String) : Option Int :=
  match s.data with
  | '-' :: rest =>
    match digitsVal rest with
    | some n => if n ≤ 2 ^ 63 then some (-(n : Int)) else none
    | none => none
  | '+' :: rest =>
    match digitsVal rest with
    | some n => if n < 2 ^ 63 then some ((n : Int)) else none
    | none => none
  | cs =>
    match digitsVal cs with
    | some n => if n < 2 ^ 63 then some ((n : Int)) else none
    | none => none

/-- Models `str::parse::<u8>` (used by `deserialize_u8`): same grammar as `u64`
with the `u8` overflow bound. -/
def parseU8 (s : String) : Option Nat :=
  let body :=
    match s.data with
    | '+' :: rest => rest
    | cs => cs
  match digitsVal body with
  | some n => if n < 2 ^ 8 then some n else none
  | none => none

/-- Strip one optional leading sign. -/
def stripSign : List Char → List Char
  | c :: rest => if c = '+' ∨ c = '-' then rest else c :: rest
  | [] => []

/-- The mantissa grammar of `f64::from_str`:
`Digit+ | Digit+ '.' Digit* | '.' Digit+`. -/
def mantissaOk (cs : List Char) : Bool :=
  match List.span Char.isDigit cs with
  | (intPart, rest) =>
    match rest with
    | [] => !intPart.isEmpty
    | '.' :: frac =>
      (!intPart.isEmpty || !frac.isEmpty) && frac.all Char.isDigit
    | _ => false

/-- The exponent grammar of `f64::from_str`: optional sign then digits. -/
def expOk (cs : List Char) : Bool :=
  let cs' := stripSign cs
  !cs'.isEmpty && cs'.all Char.isDigit

/-- Whether `str::parse::<f64>` accepts the text:
`Sign? ('inf' | 'infinity' | 'nan' | Number)` case-insensitively, with
`Number ::= Mantissa (('e'|'E') Exp)?`.  Only acceptance is modelled; the
floating-point value itself is outside the embedding. -/
def parseF64Accepts (s : String) : Bool :=
  let cs := stripSign s.data
  let lower := cs.map Char.toLower
  if lower = ['i', 'n', 'f'] ∨
      lower = ['i', 'n', 'f', 'i', 'n', 'i', 't', 'y'] ∨
      lower = ['n', 'a', 'n'] then
    true
  else
    match List.span (fun c => c != 'e' && c != 'E') cs with
    | (mant, []) => mantissaOk mant
    | (mant, _ :: exp) => mantissaOk mant && expOk exp

/-- What the self-describing number deserializer hands to the visitor:
a signed 64-bit value (`visit_i64`), an unsigned one (`visit_u64`), or a
float (`visit_f64`, abstracted by its accepted literal text). -/
inductive DeVisited where
  | vI64 (n : Int)
  | vU64 (n : Nat)
  | vF64 (lit : String)
deriving Repr, DecidableEq

/-- Embeds `DeserializerNumber::deserialize_number`
(`src/de/deserializer_number.rs`): probe `i64`, then `u64`, then `f64`,
else fail with `FailedToParseFloat` (via `.into()`, so with empty path). -/
def deserializeNumberAny (input : String) : Except DynError DeVisited :=
  match parseI64 input with
  | some i => .ok (.vI64 i)
  | none =>
    match parseU64 input with
    | some u => .ok (.vU64 u)
    | none =>
      if parseF64Accepts input then .ok (.vF64 input)
      else .error (ErrorImpl.FailedToParseFloat input).intoError

/-- The Rust constructor name of an `ErrorImpl` value. -/
def ErrorImpl.rustName : ErrorImpl → String
  | .Message _ => "Message"
  | .NotMaplike => "NotMaplike"
  | .NotSetlike => "NotSetlike"
  | .ExpectedString => "ExpectedString"
  | .ExpectedMap => "ExpectedMap"
  | .ExpectedSeq => "ExpectedSeq"
  | .ExpectedNum => "ExpectedNum"
  | .ExpectedBool => "ExpectedBool"
  | .ExpectedChar => "ExpectedChar"
  | .ExpectedUnit => "ExpectedUnit"
  | .ExpectedUnitStruct => "ExpectedUnitStruct"
  | .ExpectedEnum => "ExpectedEnum"
  | .ExpectedBytes => "ExpectedBytes"
  | .ExpectedSingleKey => "ExpectedSingleKey"
  | .FailedToParseInt _ => "FailedToParseInt"
  | .FailedToParseFloat _ => "FailedToParseFloat"
  | .KeyMustBeAString => "KeyMustBeAString"
  | .SerializeMapKeyCalledTwice => "SerializeMapKeyCalledTwice"
  | .SerializeMapValueBeforeKey => "SerializeMapValueBeforeKey"
  | .StringSetExpectedType => "StringSetExpectedType"
  | .NumberSetExpectedType => "NumberSetExpectedType"
  | .BinarySetExpectedType => "BinarySetExpectedType"

/-- C3 counterexample: the dead-end of the number probe is a
`FailedToParseFloat` error; no `FailedToParseNumber` kind exists in the
taxonomy.  At the concrete input `"abc"` all three probes fail and the
produced error kind is `FailedToParseFloat`. -/
theorem number_dispatch_no_failedToParseNumber :
    deserializeNumberAny "abc" =
        .error (ErrorImpl.FailedToParseFloat "abc").intoError ∧
      (ErrorImpl.FailedToParseFloat "abc").rustName = "FailedToParseFloat" ∧
      "FailedToParseNumber" ∉ errorImplConstructorNames :=
  ⟨rfl, rfl, by decide⟩

/-- C3 (amended): the self-describing number probe tries `i64`, then
`u64`, then `f64`, in that order, and otherwise fails with a
`FailedToParseFloat` error (wrapping the float-parse failure) — not a
`FailedToParseNumber` kind. -/
theorem number_dispatch :
    (∀ (s : String) (i : Int), parseI64 s = some i →
        deserializeNumberAny s = .ok (.vI64 i)) ∧
      (∀ (s : String) (u : Nat), parseI64 s = none → parseU64 s = some u →
        deserializeNumberAny s = .ok (.vU64 u)) ∧
      (∀ s : String, parseI64 s = none → parseU64 s = none →
        parseF64Accepts s = true → deserializeNumberAny s = .ok (.vF64 s)) ∧
      (∀ s : String, parseI64 s = none → parseU64 s = none →
        parseF64Accepts s = false →
        deserializeNumberAny s =
          .error (ErrorImpl.FailedToParseFloat s).intoError) := by
  refine ⟨?_, ?_, ?_, ?_⟩
  · intro s i h; simp [deserializeNumberAny, h]
  · intro s u h1 h2; simp [deserializeNumberAny, h1, h2]
  · intro s h1 h2 h3; simp [deserializeNumberAny, h1, h2, h3]
  · intro s h1 h2 h3; simp [deserializeNumberAny, h1, h2, h3]

theorem number_dispatch_witness :
    deserializeNumberAny "-5" = .ok (.vI64 (-5)) ∧
      deserializeNumberAny "18446744073709551615" =
        .ok (.vU64 18446744073709551615) ∧
      deserializeNumberAny "123.45" = .ok (.vF64 "123.45") ∧
      deserializeNumberAny "abc" =
        .error (ErrorImpl.FailedToParseFloat "abc").intoError := by
  refine ⟨?_, ?_, ?_, ?_⟩
  · exact number_dispatch.1 "-5" (-5) (by decide)
  · exact number_dispatch.2.1 "18446744073709551615" 18446744073709551615
      (by decide) (by decide)
  · exact number_dispatch.2.2.1 "123.45" (by decide) (by decide) (by decide)
  · exact number_dispatch.2.2.2 "abc" (by decide) (by decide) (by decide)

/-! ### Map-key deserialization (`src/de/deserializer_map.rs`) -/

/-- Embeds `deserialize_integer_key!(deserialize_u64 => visit_u64)`: parse the
key text, mapping a parse failure to `ExpectedNum` at the current path
with the key text as an `N` value. -/
def deserializeMapKeyU64 (input : String) (path : ErrorPathL) :
    Except DynError Nat :=
  match parseU64 input with
  | some n => .ok n
  | none => .error (DynError.fromPath .ExpectedNum path (.N input))

/-- Embeds `deserialize_integer_key!(deserialize_i64 => visit_i64)`. -/
def deserializeMapKeyI64 (input : String) (path : ErrorPathL) :
    Except DynError Int :=
  match parseI64 input with
  | some n => .ok n
  | none => .error (DynError.fromPath .ExpectedNum path (.N input))

/-- C7 counterexample: an integer-requested map key with malformed text
fails with `ExpectedNum` (carrying the key text as an `N` value), not
with `FailedToParseInt`. -/
theorem mapkey_int_not_failedToParseInt :
    deserializeMapKeyU64 "abc" .root =
        .error ⟨.ExpectedNum, "", some (.N "abc")⟩ ∧
      ErrorImpl.ExpectedNum ≠ ErrorImpl.FailedToParseInt "abc" ∧
      ErrorImpl.ExpectedNum.rustName = "ExpectedNum" :=
  ⟨rfl, by decide, rfl⟩

/-- C7 (amended): for a map key requested as an integer, the key text is
parsed as that integer; well-formed text yields the parsed value, and
malformed text fails with an `ExpectedNum` error carrying the key text —
not a `FailedToParseInt` error. -/
theorem mapkey_int_parse :
    (∀ (s : String) (n : Nat) (p : ErrorPathL), parseU64 s = some n →
        deserializeMapKeyU64 s p = .ok n) ∧
      (∀ (s : String) (p : ErrorPathL), parseU64 s = none →
        deserializeMapKeyU64 s p =
          .error (DynError.fromPath .ExpectedNum p (.N s))) ∧
      (∀ (s : String) (n : Int) (p : ErrorPathL), parseI64 s = some n →
        deserializeMapKeyI64 s p = .ok n) ∧
      (∀ (s : String) (p : ErrorPathL), parseI64 s = none →
        deserializeMapKeyI64 s p =
          .error (DynError.fromPath .ExpectedNum p (.N s))) := by
  refine ⟨?_, ?_, ?_, ?_⟩
  · intro s n p h; simp [deserializeMapKeyU64, h]
  · intro s p h; simp [deserializeMapKeyU64, h]
  · intro s n p h; simp [deserializeMapKeyI64, h]
  · intro s p h; simp [deserializeMapKeyI64, h]

theorem mapkey_int_parse_witness :
    deserializeMapKeyU64 "17" .root = .ok 17 ∧
      deserializeMapKeyI64 "-3" .root = .ok (-3) ∧
      deserializeMapKeyU64 "abc" .root =
        .error (DynError.fromPath .ExpectedNum .root (.N "abc")) := by
  refine ⟨?_, ?_, ?_⟩
  · exact mapkey_int_parse.1 "17" 17 .root (by decide)
  · exact mapkey_int_parse.2.2.1 "-3" (-3) .root (by decide)
  · exact mapkey_int_parse.2.1 "abc" .root (by decide)

/-! ### Optional, unit and unit-struct deserialization
(`src/de/deserializer.rs`) -/

/-- What `deserialize_option` asks of the visitor. -/
inductive OptionalOutcome where
  | absent
  | present (inner : AttributeValue)
deriving Repr

/-- Embeds `Deserializer::deserialize_option`: `Null(true)` visits none; any
other input visits some, recursing on the very same input. -/
def deserializeOption (input : AttributeValue) : OptionalOutcome :=
  match input with
  | .Null true => .absent
  | _ => .present input

/-- C8: optional deserialization — `Null(true)` yields absent; every
other value, including `Null(false)`, yields present wrapping the same
source value. -/
theorem optional_dispatch :
    deserializeOption (.Null true) = .absent ∧
      deserializeOption (.Null false) = .present (.Null false) ∧
      ∀ v : AttributeValue, v ≠ .Null true →
        deserializeOption v = .present v := by
  refine ⟨rfl, rfl, ?_⟩
  intro v hv
  cases v with
  | Null b =>
    cases b with
    | true => exact absurd rfl hv
    | false => rfl
  | N _ => rfl
  | S _ => rfl
  | Bool _ => rfl
  | B _ => rfl
  | M _ => rfl
  | L _ => rfl
  | Ss _ => rfl
  | Ns _ => rfl
  | Bs _ => rfl

theorem optional_dispatch_witness :
    deserializeOption (.S "x") = .present (.S "x") :=
  optional_dispatch.2.2 (.S "x") (fun h => AttributeValue.noConfusion h)

/-- Embeds `Deserializer::deserialize_unit`: only `Null(true)` visits unit;
anything else is an `ExpectedUnit` error at the current path. -/
def deserializeUnit (input : AttributeValue) (path : ErrorPathL) :
    Except DynError Unit :=
  match input with
  | .Null true => .ok ()
  | _ => .error (DynError.fromPath .ExpectedUnit path input)

/-- Embeds `Deserializer::deserialize_unit_struct`: same check with
`ExpectedUnitStruct`. -/
def deserializeUnitStruct (input : AttributeValue) (path : ErrorPathL) :
    Except DynError Unit :=
  match input with
  | .Null true => .ok ()
  | _ => .error (DynError.fromPath .ExpectedUnitStruct path input)

/-- C9: unit and unit-struct deserialization succeed exactly on
`Null(true)`; `Null(false)` fails with `ExpectedUnit` (respectively
`ExpectedUnitStruct`) even though it is a `Null`-variant value. -/
theorem unit_requires_null_true :
    deserializeUnit (.Null true) .root = .ok () ∧
      deserializeUnitStruct (.Null true) .root = .ok () ∧
      deserializeUnit (.Null false) .root =
        .error ⟨.ExpectedUnit, "", some (.Null false)⟩ ∧
      deserializeUnitStruct (.Null false) .root =
        .error ⟨.ExpectedUnitStruct, "", some (.Null false)⟩ ∧
      (∀ (v : AttributeValue) (p : ErrorPathL), v ≠ .Null true →
        deserializeUnit v p = .error (DynError.fromPath .ExpectedUnit p v)) ∧
      (∀ (v : AttributeValue) (p : ErrorPathL), v ≠ .Null true →
        deserializeUnitStruct v p =
          .error (DynError.fromPath .ExpectedUnitStruct p v)) := by
  refine ⟨rfl, rfl, rfl, rfl, ?_, ?_⟩ <;>
    · intro v p hv
      cases v with
      | Null b =>
        cases b with
        | true => exact absurd rfl hv
        | false => rfl
      | N _ => rfl
      | S _ => rfl
      | Bool _ => rfl
      | B _ => rfl
      | M _ => rfl
      | L _ => rfl
      | Ss _ => rfl
      | Ns _ => rfl
      | Bs _ => rfl

theorem unit_requires_null_true_witness :
    deserializeUnit (.S "x") .root =
        .error (DynError.fromPath .ExpectedUnit .root (.S "x")) ∧
      deserializeUnitStruct (.S "x") .root =
        .error (DynError.fromPath .ExpectedUnitStruct .root (.S "x")) :=
  ⟨unit_requires_null_true.2.2.2.2.1 (.S "x") .root
      (fun h => AttributeValue.noConfusion h),
    unit_requires_null_true.2.2.2.2.2 (.S "x") .root
      (fun h => AttributeValue.noConfusion h)⟩

/-! ### The serializer (`src/ser/`)

`Ser` is the serde data model as presented to a `serde::Serializer` by the
framework's visitor callbacks: one constructor per `serialize_*` entry
point.  Integers of every width are collapsed into one constructor holding
the value (every width serializes as `v.to_string()`); floats are
abstracted by their `Display` rendering. -/

/-- The `name: &'static str` argument of `serialize_newtype_struct`.
The set sentinels are compared by pointer identity
(`std::ptr::eq(name, NEWTYPE_SYMBOL)`), so a user-supplied string with
equal contents is still `regular`; the three sentinel statics of
`src/set/{strings,numbers,bytes}.rs` are distinct constructors. -/
inductive NewtypeName where
  | regular (s : String)
  | stringSetSentinel
  | numberSetSentinel
  | bytesSetSentinel
deriving Repr, DecidableEq

/-- The serde data model of a value being serialized. -/
inductive Ser where
  | int (n : Int)
  | float (rendered : String)
  | str (s : String)
  | char (c : Char)
  | bool (b : Bool)
  | bytes (bs : List Nat)
  | optNone
  | optSome (v : Ser)
  | unit
  | unitStruct (name : String)
  | unitVariant (name variant : String)
  | newtypeStruct (name : NewtypeName) (v : Ser)
  | newtypeVariant (name variant : String) (v : Ser)
  | seq (items : List Ser)
  | tuple (items : List Ser)
  | tupleStruct (name : String) (items : List Ser)
  | tupleVariant (name variant : String) (items : List Ser)
  | map (entries : List (Ser × Ser))
  | structS (name : String) (fields : List (String × Ser))
  | structVariant (name variant : String) (fields : List (String × Ser))
deriving Repr

/-- Serialization outcome: an `ErrorImpl`-kinded error, or a panic
(`unreachable!()` in the source). -/
inductive SerErr where
  | err (kind : ErrorImpl)
  | panicked
deriving Repr, DecidableEq

/-- Embeds `MapKeySerializer` (`src/ser/serializer_map.rs`): renders integers,
strings, chars and unit-variant tags as text; newtype structs recurse;
floats, bools, options, units, unit-structs, tuples, tuple-structs,
structs, tuple/struct/newtype variants fail with `KeyMustBeAString`;
`serialize_seq`, `serialize_map` and `serialize_bytes` are
`unreachable!()` and panic. -/
def serializeMapKey : Ser → Except SerErr String
  | .int n => .ok (toString n)
  | .float _ => .error (.err .KeyMustBeAString)
  | .str s => .ok s
  | .char c => .ok (toString c)
  | .bool _ => .error (.err .KeyMustBeAString)
  | .bytes _ => .error .panicked
  | .optNone => .error (.err .KeyMustBeAString)
  | .optSome _ => .error (.err .KeyMustBeAString)
  | .unit => .error (.err .KeyMustBeAString)
  | .unitStruct _ => .error (.err .KeyMustBeAString)
  | .unitVariant _ variant => .ok variant
  | .newtypeStruct _ v => serializeMapKey v
  | .newtypeVariant _ _ _ => .error (.err .KeyMustBeAString)
  | .seq _ => .error .panicked
  | .tuple _ => .error (.err .KeyMustBeAString)
  | .tupleStruct _ _ => .error (.err .KeyMustBeAString)
  | .tupleVariant _ _ _ => .error (.err .KeyMustBeAString)
  | .map _ => .error .panicked
  | .structS _ _ => .error (.err .KeyMustBeAString)
  | .structVariant _ _ _ => .error (.err .KeyMustBeAString)
termination_by structural v => v

/-- Element check of `convert_to_set` in `src/set/strings.rs`: every
element must be an `S`, else `StringSetExpectedType`. -/
def collectStringItems : List AttributeValue → Except SerErr (List String)
  | [] => .ok []
  | .S s :: rest =>
    match collectStringItems rest with
    | .ok ss => .ok (s :: ss)
    | .error e => .error e
  | _ :: _ => .error (.err .StringSetExpectedType)
termination_by structural l => l

/-- Element check of `convert_to_set` in `src/set/numbers.rs`: every
element must be an `N`, else `NumberSetExpectedType`. -/
def collectNumberItems : List AttributeValue → Except SerErr (List String)
  | [] => .ok []
  | .N s :: rest =>
    match collectNumberItems rest with
    | .ok ss => .ok (s :: ss)
    | .error e => .error e
  | _ :: _ => .error (.err .NumberSetExpectedType)
termination_by structural l => l

/-- Element check of `convert_to_set` in `src/set/bytes.rs`: every
element must be a `B`; the call site names the error
`ErrorImpl::BytesSetExpectedType`, embedded as the taxonomy's
`BinarySetExpectedType` constructor. -/
def collectByteItems : List AttributeValue → Except SerErr (List (List Nat))
  | [] => .ok []
  | .B b :: rest =>
    match collectByteItems rest with
    | .ok bs => .ok (b :: bs)
    | .error e => .error e
  | _ :: _ => .error (.err .BinarySetExpectedType)
termination_by structural l => l

/-- Embeds `convert_to_set` of `src/set/strings.rs`: a non-`L` input is
`NotSetlike`; otherwise check every element and build an `Ss`. -/
def stringsConvertToSet (value : AttributeValue) :
    Except SerErr AttributeValue :=
  match value with
  | .L vals =>
    match collectStringItems vals with
    | .ok ss => .ok (.Ss ss)
    | .error e => .error e
  | _ => .error (.err .NotSetlike)

/-- Embeds `convert_to_set` of `src/set/numbers.rs`. -/
def numbersConvertToSet (value : AttributeValue) :
    Except SerErr AttributeValue :=
  match value with
  | .L vals =>
    match collectNumberItems vals with
    | .ok ss => .ok (.Ns ss)
    | .error e => .error e
  | _ => .error (.err .NotSetlike)

/-- Embeds `convert_to_set` of `src/set/bytes.rs`. -/
def bytesConvertToSet (value : AttributeValue) :
    Except SerErr AttributeValue :=
  match value with
  | .L vals =>
    match collectByteItems vals with
    | .ok bs => .ok (.Bs bs)
    | .error e => .error e
  | _ => .error (.err .NotSetlike)

/-- Modelled from the spec: the `serialize_newtype_struct` handler of the
set-sentinel generation is not present under `src/` (the
`src/ser/serializer.rs` in this snapshot is the earlier single-sentinel
generation, while `src/set/{strings,numbers,bytes}.rs` provide the three
sentinels, the `should_serialize_as_*_set` identity tests and the
per-kind `convert_to_set`).  Following §4.5 of the spec: the wrapped
value is serialized normally, and when the declared name is one of the
three sentinel statics (compared by identity) the produced value is
re-interpreted through the matching `convert_to_set`; any other name is
transparent. -/
def setSentinelDispatch (name : NewtypeName) (av : AttributeValue) :
    Except SerErr AttributeValue :=
  match name with
  | .regular _ => .ok av
  | .stringSetSentinel => stringsConvertToSet av
  | .numberSetSentinel => numbersConvertToSet av
  | .bytesSetSentinel => bytesConvertToSet av

mutual

/-- Embeds `Serializer` (`src/ser/serializer.rs`): the shape-to-variant mapping
of the main serializer, with composite shapes accumulated by the
sub-serializers of `src/ser/serializer_{seq,map,struct,...}.rs`. -/
def serializeSer : Ser → Except SerErr AttributeValue
  | .int n => .ok (.N (toString n))
  | .float rendered => .ok (.N rendered)
  | .str s => .ok (.S s)
  | .char c => .ok (.S (toString c))
  | .bool b => .ok (.Bool b)
  | .bytes bs => .ok (.B bs)
  | .optNone => .ok (.Null true)
  | .optSome v => serializeSer v
  | .unit => .ok (.Null true)
  | .unitStruct _ => .ok (.Null true)
  | .unitVariant _ variant => .ok (.S variant)
  | .newtypeStruct name v =>
    match serializeSer v with
    | .ok av => setSentinelDispatch name av
    | .error e => .error e
  | .newtypeVariant _ variant v =>
    match serializeSer v with
    | .ok av => .ok (.M [(variant, av)])
    | .error e => .error e
  | .seq items =>
    match serializeList items with
    | .ok avs => .ok (.L avs)
    | .error e => .error e
  | .tuple items =>
    match serializeList items with
    | .ok avs => .ok (.L avs)
    | .error e => .error e
  | .tupleStruct _ items =>
    match serializeList items with
    | .ok avs => .ok (.L avs)
    | .error e => .error e
  | .tupleVariant _ variant items =>
    match serializeList items with
    | .ok avs => .ok (.M [(variant, .L avs)])
    | .error e => .error e
  | .map entries =>
    match serializeMapEntries [] entries with
    | .ok item => .ok (.M item)
    | .error e => .error e
  | .structS _ fields =>
    match serializeStructFields [] fields with
    | .ok item => .ok (.M item)
    | .error e => .error e
  | .structVariant _ variant fields =>
    match serializeStructFields [] fields with
    | .ok item => .ok (.M [(variant, .M item)])
    | .error e => .error e
termination_by structural v => v

/-- Embeds `SerializeSeq` / `SerializeTuple` / `SerializeTupleStruct`
(`src/ser/serializer_seq.rs`): serialize each element in order. -/
def serializeList : List Ser → Except SerErr (List AttributeValue)
  | [] => .ok []
  | v :: rest =>
    match serializeSer v with
    | .ok av =>
      match serializeList rest with
      | .ok avs => .ok (av :: avs)
      | .error e => .error e
    | .error e => .error e
termination_by structural l => l

/-- Embeds `SerializeMap` (`src/ser/serializer_map.rs`): each entry's key is
rendered through `MapKeySerializer`, its value through the main
serializer, and the pair is inserted into the accumulating `HashMap`
(so duplicate rendered keys resolve last-write-wins). -/
def serializeMapEntries (acc : List (String × AttributeValue)) :
    List (Ser × Ser) → Except SerErr (List (String × AttributeValue))
  | [] => .ok acc
  | (k, v) :: rest =>
    match serializeMapKey k with
    | .ok key =>
      match serializeSer v with
      | .ok av => serializeMapEntries (insertAssoc key av acc) rest
      | .error e => .error e
    | .error e => .error e
termination_by structural entries => entries

/-- Embeds `SerializeStruct` (`src/ser/serializer_struct.rs`): field names are
the keys, values serialized recursively, inserted into the accumulating
`HashMap`. -/
def serializeStructFields (acc : List (String × AttributeValue)) :
    List (String × Ser) → Except SerErr (List (String × AttributeValue))
  | [] => .ok acc
  | (k, v) :: rest =>
    match serializeSer v with
    | .ok av => serializeStructFields (insertAssoc k av acc) rest
    | .error e => .error e
termination_by structural fields => fields

end

theorem serializeList_bytes (bss : List (List Nat)) :
    serializeList (bss.map Ser.bytes) = .ok (bss.map AttributeValue.B) := by
  induction bss with
  | nil => rfl
  | cons b rest ih => simp [serializeList, serializeSer, ih]

theorem serializeList_strs (ss : List String) :
    serializeList (ss.map Ser.str) = .ok (ss.map AttributeValue.S) := by
  induction ss with
  | nil => rfl
  | cons s rest ih => simp [serializeList, serializeSer, ih]

theorem serializeList_ints (ns : List Int) :
    serializeList (ns.map Ser.int) =
      .ok (ns.map (fun n => AttributeValue.N (toString n))) := by
  induction ns with
  | nil => rfl
  | cons n rest ih => simp [serializeList, serializeSer, ih]

theorem collectByteItems_map (bss : List (List Nat)) :
    collectByteItems (bss.map AttributeValue.B) = .ok bss := by
  induction bss with
  | nil => rfl
  | cons b rest ih => simp [collectByteItems, ih]

theorem collectStringItems_map (ss : List String) :
    collectStringItems (ss.map AttributeValue.S) = .ok ss := by
  induction ss with
  | nil => rfl
  | cons s rest ih => simp [collectStringItems, ih]

theorem collectNumberItems_map (ns : List Int) :
    collectNumberItems (ns.map (fun n => AttributeValue.N (toString n))) =
      .ok (ns.map toString) := by
  induction ns with
  | nil => rfl
  | cons n rest ih => simp [collectNumberItems, ih]

/-- C4: the set-newtype protocol on serialize — the wrapped sequence is
first serialized into a `List`, every element is verified to be the
scalar kind the sentinel demands, and the `List` becomes the matching
set variant preserving element order; a byte-string sequence through the
binary-set sentinel yields `Bs` (not `L`) in order, a mixed
string/number sequence fails through every wrapper with the respective
set-type-mismatch error, and a non-sequence payload is `NotSetlike`. -/
theorem set_newtype_protocol :
    (∀ bss : List (List Nat),
        serializeSer (.newtypeStruct .bytesSetSentinel
          (.seq (bss.map Ser.bytes))) = .ok (.Bs bss)) ∧
      (∀ ss : List String,
        serializeSer (.newtypeStruct .stringSetSentinel
          (.seq (ss.map Ser.str))) = .ok (.Ss ss)) ∧
      (∀ ns : List Int,
        serializeSer (.newtypeStruct .numberSetSentinel
          (.seq (ns.map Ser.int))) = .ok (.Ns (ns.map toString))) ∧
      (∀ (s : String) (n : Int) (more : List String),
        serializeSer (.newtypeStruct .stringSetSentinel
            (.seq (Ser.str s :: Ser.int n :: more.map Ser.str))) =
          .error (.err .StringSetExpectedType)) ∧
      (∀ (s : String) (n : Int) (more : List String),
        serializeSer (.newtypeStruct .numberSetSentinel
            (.seq (Ser.str s :: Ser.int n :: more.map Ser.str))) =
          .error (.err .NumberSetExpectedType)) ∧
      (∀ (s : String) (n : Int) (more : List String),
        serializeSer (.newtypeStruct .bytesSetSentinel
            (.seq (Ser.str s :: Ser.int n :: more.map Ser.str))) =
          .error (.err .BinarySetExpectedType)) ∧
      (∀ s : String,
        serializeSer (.newtypeStruct .stringSetSentinel (.str s)) =
          .error (.err .NotSetlike)) := by
  refine ⟨?_, ?_, ?_, ?_, ?_, ?_, ?_⟩
  · intro bss
    simp [serializeSer, serializeList_bytes, setSentinelDispatch,
      bytesConvertToSet, collectByteItems_map]
  · intro ss
    simp [serializeSer, serializeList_strs, setSentinelDispatch,
      stringsConvertToSet, collectStringItems_map]
  · intro ns
    simp [serializeSer, serializeList_ints, setSentinelDispatch,
      numbersConvertToSet, collectNumberItems_map]
  · intro s n more
    simp [serializeSer, serializeList, serializeList_strs,
      setSentinelDispatch, stringsConvertToSet, collectStringItems]
  · intro s n more
    simp [serializeSer, serializeList, serializeList_strs,
      setSentinelDispatch, numbersConvertToSet, collectNumberItems]
  · intro s n more
    simp [serializeSer, serializeList, serializeList_strs,
      setSentinelDispatch, bytesConvertToSet, collectByteItems]
  · intro s
    simp [serializeSer, setSentinelDispatch, stringsConvertToSet]

theorem set_newtype_protocol_witness :
    serializeSer (.newtypeStruct .bytesSetSentinel
        (.seq [Ser.bytes [1], Ser.bytes [2], Ser.bytes [3],
               Ser.bytes [4], Ser.bytes [5]])) =
      .ok (.Bs [[1], [2], [3], [4], [5]]) := by
  have h := set_newtype_protocol.1 [[1], [2], [3], [4], [5]]
  simpa using h

/-- C5 counterexample: a byte-sequence, sequence or map map-key does not
fail with `KeyMustBeAString` — `MapKeySerializer`'s `serialize_bytes`,
`serialize_seq` and `serialize_map` are `unreachable!()` and crash. -/
theorem mapkey_bytes_seq_map_panic :
    serializeMapKey (.bytes [0]) = .error .panicked ∧
      serializeMapKey (.seq []) = .error .panicked ∧
      serializeMapKey (.map []) = .error .panicked ∧
      SerErr.panicked ≠ SerErr.err .KeyMustBeAString :=
  ⟨rfl, rfl, rfl, by decide⟩

/-- C5 (amended): the key serializer accepts exactly integers, chars,
strings, unit enum variants, and newtype-structs recursively resolving to
one of those, rendering the key's text; floats, bools, options, units,
unit-structs, tuples, tuple-structs, structs and non-unit variants fail
with `KeyMustBeAString`; byte sequences, general sequences and maps hit
`unreachable!()` and crash instead of erroring. -/
theorem mapkey_discipline :
    (∀ n : Int, serializeMapKey (.int n) = .ok (toString n)) ∧
      (∀ s : String, serializeMapKey (.str s) = .ok s) ∧
      (∀ c : Char, serializeMapKey (.char c) = .ok (toString c)) ∧
      (∀ name variant : String,
        serializeMapKey (.unitVariant name variant) = .ok variant) ∧
      (∀ (name : NewtypeName) (v : Ser),
        serializeMapKey (.newtypeStruct name v) = serializeMapKey v) ∧
      (∀ r : String,
        serializeMapKey (.float r) = .error (.err .KeyMustBeAString)) ∧
      (∀ b : Bool,
        serializeMapKey (.bool b) = .error (.err .KeyMustBeAString)) ∧
      serializeMapKey .optNone = .error (.err .KeyMustBeAString) ∧
      (∀ v : Ser,
        serializeMapKey (.optSome v) = .error (.err .KeyMustBeAString)) ∧
      serializeMapKey .unit = .error (.err .KeyMustBeAString) ∧
      (∀ name : String,
        serializeMapKey (.unitStruct name) = .error (.err .KeyMustBeAString)) ∧
      (∀ (name variant : String) (v : Ser),
        serializeMapKey (.newtypeVariant name variant v) =
          .error (.err .KeyMustBeAString)) ∧
      (∀ items : List Ser,
        serializeMapKey (.tuple items) = .error (.err .KeyMustBeAString)) ∧
      (∀ (name : String) (items : List Ser),
        serializeMapKey (.tupleStruct name items) =
          .error (.err .KeyMustBeAString)) ∧
      (∀ (name variant : String) (items : List Ser),
        serializeMapKey (.tupleVariant name variant items) =
          .error (.err .KeyMustBeAString)) ∧
      (∀ (name : String) (fields : List (String × Ser)),
        serializeMapKey (.structS name fields) =
          .error (.err .KeyMustBeAString)) ∧
      (∀ (name variant : String) (fields : List (String × Ser)),
        serializeMapKey (.structVariant name variant fields) =
          .error (.err .KeyMustBeAString)) ∧
      (∀ bs : List Nat, serializeMapKey (.bytes bs) = .error .panicked) ∧
      (∀ items : List Ser, serializeMapKey (.seq items) = .error .panicked) ∧
      (∀ entries : List (Ser × Ser),
        serializeMapKey (.map entries) = .error .panicked) := by
  refine ⟨?_, ?_, ?_, ?_, ?_, ?_, ?_, rfl, ?_, rfl, ?_, ?_, ?_, ?_, ?_, ?_,
    ?_, ?_, ?_, ?_⟩ <;> intros <;> rfl

/-- C10: when two map entries' keys render to the same text, map
serialization succeeds and the resulting `Map` holds a single entry for
that text whose value comes from the entry serialized last. -/
theorem map_duplicate_keys_last_write_wins
    (k₁ k₂ v₁ v₂ : Ser) (t : String) (a₁ a₂ : AttributeValue)
    (hk₁ : serializeMapKey k₁ = .ok t) (hk₂ : serializeMapKey k₂ = .ok t)
    (hv₁ : serializeSer v₁ = .ok a₁) (hv₂ : serializeSer v₂ = .ok a₂) :
    serializeSer (.map [(k₁, v₁), (k₂, v₂)]) = .ok (.M [(t, a₂)]) := by
  simp [serializeSer, serializeMapEntries, hk₁, hk₂, hv₁, hv₂, insertAssoc]

theorem map_duplicate_keys_witness :
    serializeSer (.map [(.char '1', .int 1), (.str "1", .bool true)]) =
      .ok (.M [("1", .Bool true)]) :=
  map_duplicate_keys_last_write_wins (.char '1') (.str "1") (.int 1)
    (.bool true) "1" (.N "1") (.Bool true) rfl rfl rfl rfl

/-! ### Typed struct deserialization (for the end-to-end path scenario)

A minimal target-type universe — `u8` fields and named-field structs —
mirroring what serde's derived `Deserialize` impls do against
`Deserializer` (`src/de/deserializer.rs`) and `DeserializerMap`
(`src/de/deserializer_map.rs`). -/

/-- A deserialization target shape. -/
inductive DeTarget where
  | tU8
  | tStruct (fields : List (String × DeTarget))
deriving Repr

/-- A decoded typed value. -/
inductive TypedValue where
  | u8 (n : Nat)
  | record (fields : List (String × TypedValue))
deriving Repr

/-- Field lookup by name. -/
def lookupField (k : String) : List (String × DeTarget) → Option DeTarget
  | [] => none
  | (k₀, t) :: rest => if k₀ = k then some t else lookupField k rest
termination_by structural fields => fields

theorem lookupField_sizeOf {k : String} {fields : List (String × DeTarget)}
    {t : DeTarget} (h : lookupField k fields = some t) :
    sizeOf t < sizeOf fields := by
  induction fields with
  | nil => simp [lookupField] at h
  | cons q rest ih =>
    obtain ⟨k₀, t₀⟩ := q
    simp only [lookupField] at h
    by_cases hk : k₀ = k
    · rw [if_pos hk] at h
      cases h
      simp
      omega
    · rw [if_neg hk] at h
      have := ih h
      simp
      omega

/-- Lookup among already-decoded fields. -/
def lookupTyped (k : String) : List (String × TypedValue) → Option TypedValue
  | [] => none
  | (k₀, v) :: rest => if k₀ = k then some v else lookupTyped k rest
termination_by structural fields => fields

/-- After draining the source map, serde's generated code checks every
declared field was captured, failing with the framework's
`missing field` custom error, and assembles the struct in field order. -/
def checkFields (fields : List (String × DeTarget))
    (acc : List (String × TypedValue)) :
    Except DynError (List (String × TypedValue)) :=
  match fields with
  | [] => .ok []
  | (k, _) :: rest =>
    match lookupTyped k acc with
    | some tv =>
      match checkFields rest acc with
      | .ok tvs => .ok ((k, tv) :: tvs)
      | .error e => .error e
    | none => .error ⟨.Message ("missing field `" ++ k ++ "`"), "", none⟩
termination_by structural fields

mutual

/-- Typed deserialization of an `AttributeValue` at a target shape:
`tU8` goes through `deserialize_u8` (`deserialize_number!` in
`src/de/deserializer.rs` — an `N` payload is parsed by
`DeserializerNumber` with `FailedToParseInt` built via `.into()`, i.e.
with empty path; any other variant is `ExpectedNum` at the current
path); `tStruct` goes through `deserialize_struct` — a `List` source is
deserialized positionally, anything else through `deserialize_map`,
which drains the entries, redirecting each key through the key
deserializer and each value through a sub-`Deserializer` at path
`Field(key, parent)`. -/
def deserializeAt (t : DeTarget) (v : AttributeValue) (p : ErrorPathL) :
    Except DynError TypedValue :=
  match t with
  | .tU8 =>
    match v with
    | .N s =>
      match parseU8 s with
      | some n => .ok (.u8 n)
      | none => .error (ErrorImpl.FailedToParseInt s).intoError
    | _ => .error (DynError.fromPath .ExpectedNum p v)
  | .tStruct fields =>
    match v with
    | .L items =>
      match structSeqLoop fields items p 0 with
      | .ok tvs => .ok (.record tvs)
      | .error e => .error e
    | .M entries =>
      match structFieldsLoop fields entries p [] with
      | .ok acc =>
        match checkFields fields acc with
        | .ok tvs => .ok (.record tvs)
        | .error e => .error e
      | .error e => .error e
    | _ => .error (DynError.fromPath .ExpectedMap p v)
termination_by (sizeOf t, 0)
decreasing_by
  all_goals simp_wf
  all_goals first
    | (apply Prod.Lex.right; omega)
    | (apply Prod.Lex.left;
       first
         | exact lookupField_sizeOf hl
         | omega
         | (simp; try omega))

/-- The derived struct visitor's `visit_map` loop over
`DeserializerMap`: drain entries in order, deserializing known fields at
path `Field(key, parent)` and ignoring unknown keys. -/
def structFieldsLoop (fields : List (String × DeTarget))
    (entries : List (String × AttributeValue)) (p : ErrorPathL)
    (acc : List (String × TypedValue)) :
    Except DynError (List (String × TypedValue)) :=
  match entries with
  | [] => .ok acc
  | (k, v) :: rest =>
    match hl : lookupField k fields with
    | some t =>
      match deserializeAt t v (.field k p) with
      | .ok tv => structFieldsLoop fields rest p (insertAssoc k tv acc)
      | .error e => .error e
    | none => structFieldsLoop fields rest p acc
termination_by (sizeOf fields, entries.length + 1)
decreasing_by
  all_goals simp_wf
  all_goals first
    | (apply Prod.Lex.right; omega)
    | (apply Prod.Lex.left;
       first
         | exact lookupField_sizeOf hl
         | omega
         | (simp; try omega))

/-- The derived struct visitor's `visit_seq` loop over
`DeserializerSeq`: fields are filled positionally, element `i` at path
`Elem(i, parent)`; a missing element is the framework's invalid-length
custom error. -/
def structSeqLoop (fields : List (String × DeTarget))
    (items : List AttributeValue) (p : ErrorPathL) (i : Nat) :
    Except DynError (List (String × TypedValue)) :=
  match fields with
  | [] => .ok []
  | (k, t) :: fs =>
    match items with
    | [] => .error ⟨.Message "invalid length", "", none⟩
    | v :: vs =>
      match deserializeAt t v (.elem i p) with
      | .ok tv =>
        match structSeqLoop fs vs p (i + 1) with
        | .ok tvs => .ok ((k, tv) :: tvs)
        | .error e => .error e
      | .error e => .error e
termination_by (sizeOf fields, items.length + 1)
decreasing_by
  all_goals simp_wf
  all_goals first
    | (apply Prod.Lex.right; omega)
    | (apply Prod.Lex.left;
       first
         | exact lookupField_sizeOf hl
         | omega
         | (simp; try omega))

end

/-- C6 counterexample: path rendering appends the `'.'` separator after
every segment, array-index segments included, so the chain
`user → addresses → [2] → zip` renders `user.addresses.[2].zip` — not
the claimed form `user.addresses[2].zip` (no dot before the bracket). -/
theorem path_render_dot_before_index :
    renderPath (.field "zip" (.elem 2 (.field "addresses"
        (.field "user" .root)))) = "user.addresses.[2].zip" ∧
      "user.addresses.[2].zip" ≠ "user.addresses[2].zip" :=
  ⟨rfl, by decide⟩

/-- C6 (amended): path rendering visits the reverse-linked chain
depth-first from the root, appending each segment's text (`[i]` for an
array index) followed by a `'.'` separator — so an index segment is
preceded by a dot, as in `user.addresses.[2].zip`; the end-to-end
scenario (deserializing `{"M":{"user":{"M":{"age":{"S":"notanumber"}}}}}`
into a struct `{user: {age: u8}}`) fails with an `ExpectedNum` error
whose rendered path is exactly `user.age`. -/
theorem path_rendering :
    (∀ (name : String) (p : ErrorPathL),
        renderPathAux (.field name p) = renderPathAux p ++ name ++ ".") ∧
      (∀ (i : Nat) (p : ErrorPathL),
        renderPathAux (.elem i p) =
          renderPathAux p ++ "[" ++ toString i ++ "]" ++ ".") ∧
      renderPath (.field "zip" (.elem 2 (.field "addresses"
        (.field "user" .root)))) = "user.addresses.[2].zip" ∧
      deserializeAt (.tStruct [("user", .tStruct [("age", .tU8)])])
          (.M [("user", .M [("age", .S "notanumber")])]) .root =
        .error ⟨.ExpectedNum, "user.age", some (.S "notanumber")⟩ := by
  refine ⟨fun name p => rfl, fun i p => rfl, rfl, ?_⟩
  simp [deserializeAt, structFieldsLoop, lookupField, checkFields,
    DynError.fromPath, renderPath, renderPathAux]
  rfl

end SerdeDynamo
